import Mathlib

/-
Verification of the ZalupiX backend: the Schedule Cache component
(`SchedulerService`) and the HTTP handlers of `src/app/app.py`.

The scheduler service itself (`app/service/scheduler_service.py`) is not
part of the provided sources; its operations are modelled from the spec
(section 4.1) and each such definition is marked `Modelled from the spec`.
The HTTP handlers are embedded directly from `src/app/app.py`.

Dates and timestamps are modelled as integers (a date ordinal); the
provider call is modelled by passing its outcome (`Except String (List
Event)`) into each operation that performs a fetch, together with the
current time `now` used for the last-refreshed timestamp.
-/

namespace ZalupiX

/-- An Event record (spec section 3): identifier, title, start timestamp,
optional end timestamp, free-form metadata. -/
structure Event where
  id : Nat
  title : String
  start : Int
  endTime : Option Int
  meta : List (String × String)
  deriving Repr, DecidableEq

/-- Schedule Cache state (spec section 3): ordered event sequence,
whether the cache has ever been populated, last-refreshed timestamp,
connectivity flag derived from the last provider call's outcome. -/
structure SchedulerState where
  events : List Event
  populated : Bool
  lastRefresh : Option Nat
  connected : Bool
  deriving Repr, DecidableEq

/-- The initial state: initialized empty at process start. -/
def SchedulerState.init : SchedulerState :=
  { events := [], populated := false, lastRefresh := none, connected := false }

/-- Modelled from the spec: the date-bound test used by `get_events` —
an event passes when `D1 ≤ start ≤ D2`, where an omitted bound removes
that side of the filter. -/
def inBounds (d1 d2 : Option Int) (e : Event) : Bool :=
  (match d1 with
   | none => true
   | some a => decide (a ≤ e.start)) &&
  (match d2 with
   | none => true
   | some b => decide (e.start ≤ b))

/-- Modelled from the spec: the filtering step of `get_events`. -/
def filterEvents (evs : List Event) (d1 d2 : Option Int) : List Event :=
  evs.filter (inBounds d1 d2)

/-- Modelled from the spec: `refresh_events` of the missing
`SchedulerService`. Unconditionally calls the Event Provider Client
(outcome passed as `fetch`); on success replaces the entire snapshot,
updates the last-refreshed timestamp and returns the new snapshot; on
failure surfaces a Provider-Unavailable error and leaves the cached
events unchanged (the connectivity flag records the failed outcome). -/
def refresh_events (st : SchedulerState) (fetch : Except String (List Event))
    (now : Nat) : Except String (List Event) × SchedulerState :=
  match fetch with
  | Except.error msg =>
      (Except.error ("Provider-Unavailable: " ++ msg), { st with connected := false })
  | Except.ok evs =>
      (Except.ok evs,
       { events := evs, populated := true, lastRefresh := some now, connected := true })

/-- Modelled from the spec: `get_events` of the missing
`SchedulerService`. If the cache has never been populated, performs an
implicit initial fetch before filtering (lazy population); otherwise a
pure read returning the events whose start timestamp lies within the
optional inclusive bounds. -/
def get_events (st : SchedulerState) (fetch : Except String (List Event))
    (now : Nat) (d1 d2 : Option Int) :
    Except String (List Event) × SchedulerState :=
  if st.populated then
    (Except.ok (filterEvents st.events d1 d2), st)
  else
    match fetch with
    | Except.error msg =>
        (Except.error ("Provider-Unavailable: " ++ msg), { st with connected := false })
    | Except.ok evs =>
        (Except.ok (filterEvents evs d1 d2),
         { events := evs, populated := true, lastRefresh := some now, connected := true })

/-- Modelled from the spec: `add_event` appends to the in-memory cache
only. -/
def add_event (st : SchedulerState) (newEvents : List Event) : SchedulerState :=
  { st with events := st.events ++ newEvents }

/-- Modelled from the spec: `is_connected` reports whether the most
recent provider interaction succeeded; a pure read of the state. -/
def is_connected (st : SchedulerState) : Bool :=
  st.connected

/-- Response schema of GET /health. -/
structure HealthResponse where
  status : String
  google_api : String
  deriving Repr, DecidableEq

/-- Response schema of GET /schedule and body of POST /schedule/add. -/
structure ScheduleResponse where
  events : List Event
  deriving Repr, DecidableEq

/-- An HTTPException as raised by the handlers: status code and detail. -/
structure HTTPError where
  status_code : Nat
  detail : String
  deriving Repr, DecidableEq

/-- The `str()` of a FastAPI/Starlette HTTPException: the status code,
then a colon and a space, then the detail. -/
def strOfHTTPError (e : HTTPError) : String :=
  toString e.status_code ++ ": " ++ e.detail

/-- The GET /health handler (`health_check`, src/app/app.py lines
130-145): status is always "healthy"; google_api reports the
connectivity flag. `is_connected` cannot raise, so the except branch is
unreachable and the handler always returns a response. -/
def health_check (st : SchedulerState) : HealthResponse :=
  if is_connected st then
    { status := "healthy", google_api := "connected" }
  else
    { status := "healthy", google_api := "disconnected" }

/-- The GET /schedule handler (`get_schedule`, src/app/app.py lines
148-172): if `refresh` then return `refresh_events()` wholesale,
ignoring the date bounds; otherwise return
`get_events(start_date, end_date)`. Any error from the scheduler is
caught and re-raised as HTTP 500 with the message appended to
"Failed to get schedule: ". -/
def get_schedule (refresh : Bool) (start_date end_date : Option Int)
    (st : SchedulerState) (fetch : Except String (List Event)) (now : Nat) :
    Except HTTPError ScheduleResponse × SchedulerState :=
  if refresh then
    match refresh_events st fetch now with
    | (Except.error msg, st') =>
        (Except.error { status_code := 500, detail := "Failed to get schedule: " ++ msg }, st')
    | (Except.ok evs, st') =>
        (Except.ok { events := evs }, st')
  else
    match get_events st fetch now start_date end_date with
    | (Except.error msg, st') =>
        (Except.error { status_code := 500, detail := "Failed to get schedule: " ++ msg }, st')
    | (Except.ok evs, st') =>
        (Except.ok { events := evs }, st')

/-- The POST /schedule/add handler (`add_schedule`, src/app/app.py lines
175-185): passes the submitted events to `add_event` and returns a
ScheduleResponse with an empty events list. -/
def add_schedule (schedule : ScheduleResponse) (st : SchedulerState) :
    ScheduleResponse × SchedulerState :=
  (ScheduleResponse.mk [], add_event st schedule.events)

/-- A user profile record: opaque per the spec, keyed by a numeric
external identifier. -/
structure UserProfile where
  telegram_id : Nat
  fields : List (String × String)
  deriving Repr, DecidableEq

/-- Response schema of the user endpoints. -/
structure UserProfileResponse where
  user_profile : UserProfile
  deriving Repr, DecidableEq

/-- The GET /user/\x7btelegram_id\x7d handler (`get_user_profile`,
src/app/app.py lines 188-197): `lookup` is the User Service's result for
that id; `none` yields HTTP 404, `some p` yields the stored record. -/
def get_user_profile (lookup : Option UserProfile) :
    Except HTTPError UserProfileResponse :=
  match lookup with
  | none => Except.error { status_code := 404, detail := "Пользователь не найден" }
  | some p => Except.ok { user_profile := p }

/-- The body of the try block of POST /auth/telegram (`telegram_auth`,
src/app/app.py lines 227-237): `init_data` is `data.get("init_data")`
(`none` when the field is absent); a missing or empty value fails the
Python truthiness test `not init_data` and raises HTTPException 400,
otherwise the stub success payload is returned. -/
def telegram_auth_try (init_data : Option String) :
    Except HTTPError (Bool × String) :=
  match init_data with
  | none => Except.error { status_code := 400, detail := "init_data is required" }
  | some s =>
      if s = "" then
        Except.error { status_code := 400, detail := "init_data is required" }
      else
        Except.ok (true, "Telegram auth successful")

/-- The POST /auth/telegram handler (`telegram_auth`, src/app/app.py
lines 224-241): the whole try block is wrapped in `except Exception as
e`, which also catches the HTTPException(400) raised inside and
re-raises it as HTTP 500 with `str(e)` appended to
"Telegram auth failed: ". -/
def telegram_auth (init_data : Option String) :
    Except HTTPError (Bool × String) :=
  match telegram_auth_try init_data with
  | Except.error e =>
      Except.error
        { status_code := 500, detail := "Telegram auth failed: " ++ strOfHTTPError e }
  | Except.ok r => Except.ok r

/-- The date-bound test passes exactly when every given bound holds. -/
theorem inBounds_iff (d1 d2 : Option Int) (e : Event) :
    inBounds d1 d2 e = true ↔
      (∀ a, d1 = some a → a ≤ e.start) ∧ (∀ b, d2 = some b → e.start ≤ b) := by
  cases d1 <;> cases d2 <;> simp [inBounds]

/-- Filtering with no bounds returns the whole list. -/
theorem filterEvents_none_none (evs : List Event) :
    filterEvents evs none none = evs := by
  simp [filterEvents, inBounds]

/-- Claim C1: refresh_events is all-or-nothing — for every cache state,
when the provider call fails the cached event sequence after the call
equals the one before it (no partial replacement) and a
Provider-Unavailable error is surfaced to the caller. -/
theorem C1_refresh_events_all_or_nothing (st : SchedulerState) (msg : String)
    (now : Nat) :
    (refresh_events st (Except.error msg) now).2.events = st.events ∧
    (refresh_events st (Except.error msg) now).1 =
      Except.error ("Provider-Unavailable: " ++ msg) :=
  ⟨rfl, rfl⟩

/-- Claim C2: on a populated cache, get_events returns exactly the
cached events whose start timestamp lies within the optional inclusive
bounds (an omitted bound removes that side of the filter, both omitted
returns all events), does not mutate the cache, and GET /schedule with
refresh=false returns precisely this filtered sequence. -/
theorem C2_get_events_filter (st : SchedulerState)
    (fetch : Except String (List Event)) (now : Nat) (d1 d2 : Option Int)
    (hpop : st.populated = true) :
    get_events st fetch now d1 d2 =
      (Except.ok (st.events.filter (inBounds d1 d2)), st) ∧
    (∀ e : Event, e ∈ st.events.filter (inBounds d1 d2) ↔
        e ∈ st.events ∧
          (∀ a, d1 = some a → a ≤ e.start) ∧
          (∀ b, d2 = some b → e.start ≤ b)) ∧
    get_events st fetch now none none = (Except.ok st.events, st) ∧
    get_schedule false d1 d2 st fetch now =
      (Except.ok (ScheduleResponse.mk (st.events.filter (inBounds d1 d2))), st) := by
  refine ⟨?_, ?_, ?_, ?_⟩
  · simp [get_events, filterEvents, hpop]
  · intro e
    rw [List.mem_filter, inBounds_iff]
  · simp [get_events, filterEvents_none_none, hpop]
  · simp [get_schedule, get_events, filterEvents, hpop]

/-- A concrete instantiation of the C2 theorem on a two-event cache. -/
theorem C2_witness :
    ({ events := [⟨1, "a", 10, none, []⟩, ⟨2, "b", 40, none, []⟩],
       populated := true, lastRefresh := none, connected := true } :
        SchedulerState).populated = true ∧
    get_events
      { events := [⟨1, "a", 10, none, []⟩, ⟨2, "b", 40, none, []⟩],
        populated := true, lastRefresh := none, connected := true }
      (Except.error "x") 0 (some 15) (some 60) =
      (Except.ok
        ([⟨1, "a", 10, none, []⟩, ⟨2, "b", 40, none, []⟩].filter
          (inBounds (some 15) (some 60))),
       { events := [⟨1, "a", 10, none, []⟩, ⟨2, "b", 40, none, []⟩],
         populated := true, lastRefresh := none, connected := true }) :=
  ⟨rfl, (C2_get_events_filter _ (Except.error "x") 0 (some 15) (some 60) rfl).1⟩

/-- Claim C3: every successful refresh replaces the snapshot wholesale
with the provider result, updates the last-refreshed timestamp, returns
the new snapshot, and a subsequent unbounded get_events returns exactly
that result set in provider order. -/
theorem C3_refresh_events_success (st : SchedulerState) (evs : List Event)
    (now now2 : Nat) (fetch2 : Except String (List Event)) :
    refresh_events st (Except.ok evs) now =
      (Except.ok evs,
       { events := evs, populated := true, lastRefresh := some now,
         connected := true }) ∧
    get_events (refresh_events st (Except.ok evs) now).2 fetch2 now2 none none =
      (Except.ok evs, (refresh_events st (Except.ok evs) now).2) := by
  refine ⟨rfl, ?_⟩
  simp [refresh_events, get_events, filterEvents_none_none]

/-- Claim C4: the GET /health handler always reports status "healthy",
reports google_api "connected" exactly when is_connected is true, and
is_connected reflects the outcome of the most recent fetch/refresh
without performing any provider call of its own. -/
theorem C4_health_check (st : SchedulerState) (msg : String)
    (evs : List Event) (now : Nat) :
    (health_check st).status = "healthy" ∧
    ((health_check st).google_api = "connected" ↔ is_connected st = true) ∧
    is_connected (refresh_events st (Except.error msg) now).2 = false ∧
    is_connected (refresh_events st (Except.ok evs) now).2 = true := by
  refine ⟨?_, ?_, rfl, rfl⟩
  · cases hc : st.connected <;> simp [health_check, is_connected, hc]
  · cases hc : st.connected <;> simp [health_check, is_connected, hc]

/-- A concrete instantiation of the C4 theorem on the initial state. -/
theorem C4_witness :
    (health_check SchedulerState.init).status = "healthy" :=
  (C4_health_check SchedulerState.init "x" [] 0).1

/-- Claim C5: whenever a GET /schedule request actually performs a
provider call (refresh requested, or cache not yet populated) and that
call fails, the handler surfaces the failure as HTTP 500 whose detail
contains the underlying error message, without retrying and without
mutating the cached events. -/
theorem C5_get_schedule_error_500 (refresh : Bool) (d1 d2 : Option Int)
    (st : SchedulerState) (msg : String) (now : Nat)
    (h : refresh = true ∨ st.populated = false) :
    (get_schedule refresh d1 d2 st (Except.error msg) now).1 =
      Except.error
        { status_code := 500,
          detail := "Failed to get schedule: " ++
            ("Provider-Unavailable: " ++ msg) } ∧
    (get_schedule refresh d1 d2 st (Except.error msg) now).2.events = st.events := by
  cases refresh with
  | true => exact ⟨rfl, rfl⟩
  | false =>
    rcases h with h | h
    · exact absurd h (by simp)
    · constructor <;> simp [get_schedule, get_events, h]

/-- A concrete instantiation of the C5 theorem with a forced refresh. -/
theorem C5_witness :
    (true = true ∨ SchedulerState.init.populated = false) ∧
    (get_schedule true none none SchedulerState.init (Except.error "boom") 0).1 =
      Except.error
        { status_code := 500,
          detail := "Failed to get schedule: " ++
            ("Provider-Unavailable: " ++ "boom") } :=
  ⟨Or.inl rfl,
   (C5_get_schedule_error_500 true none none SchedulerState.init "boom" 0
      (Or.inl rfl)).1⟩

/-- Claim C6: on a never-populated cache, get_events performs the
implicit initial fetch; if it fails a Provider-Unavailable error is
surfaced, the cached events are unchanged and the cache stays
unpopulated, and a subsequent get_events call performs the fetch again —
a later successful fetch populates the cache and returns its filtered
result. -/
theorem C6_lazy_fetch_retry (st : SchedulerState) (msg : String)
    (now now2 : Nat) (d1 d2 d1' d2' : Option Int) (evs : List Event)
    (hunpop : st.populated = false) :
    (get_events st (Except.error msg) now d1 d2).1 =
      Except.error ("Provider-Unavailable: " ++ msg) ∧
    (get_events st (Except.error msg) now d1 d2).2.events = st.events ∧
    (get_events st (Except.error msg) now d1 d2).2.populated = false ∧
    (get_events (get_events st (Except.error msg) now d1 d2).2
        (Except.ok evs) now2 d1' d2').1 =
      Except.ok (filterEvents evs d1' d2') ∧
    (get_events (get_events st (Except.error msg) now d1 d2).2
        (Except.ok evs) now2 d1' d2').2.populated = true := by
  refine ⟨?_, ?_, ?_, ?_, ?_⟩ <;> simp [get_events, hunpop]

/-- A concrete instantiation of the C6 theorem on the initial state. -/
theorem C6_witness :
    SchedulerState.init.populated = false ∧
    (get_events SchedulerState.init (Except.error "down") 0 none none).1 =
      Except.error ("Provider-Unavailable: " ++ "down") :=
  ⟨rfl,
   (C6_lazy_fetch_retry SchedulerState.init "down" 0 1 none none none none []
      rfl).1⟩

/-- Claim C7: the GET /user endpoint returns the stored profile when the
User Service finds a record, and responds 404 exactly when the User
Service returns no record. -/
theorem C7_get_user_profile (p : UserProfile) (lookup : Option UserProfile) :
    get_user_profile (some p) = Except.ok { user_profile := p } ∧
    get_user_profile none =
      Except.error { status_code := 404, detail := "Пользователь не найден" } ∧
    ((∃ e, get_user_profile lookup = Except.error e ∧ e.status_code = 404) ↔
      lookup = none) := by
  refine ⟨rfl, rfl, ?_⟩
  cases lookup <;> simp [get_user_profile]

/-- A concrete instantiation of the C7 theorem. -/
theorem C7_witness :
    get_user_profile (some ⟨1, []⟩) = Except.ok { user_profile := ⟨1, []⟩ } :=
  (C7_get_user_profile ⟨1, []⟩ none).1

/-- Claim C8: GET /schedule with refresh=true ignores the date bounds —
two requests differing only in the bounds produce identical results for
the same cache and provider state, and a successful forced refresh
returns the full unfiltered provider result. -/
theorem C8_refresh_ignores_bounds (d1 d2 d1' d2' : Option Int)
    (st : SchedulerState) (fetch : Except String (List Event)) (now : Nat)
    (evs : List Event) :
    get_schedule true d1 d2 st fetch now =
      get_schedule true d1' d2' st fetch now ∧
    get_schedule true d1 d2 st (Except.ok evs) now =
      (Except.ok { events := evs }, (refresh_events st (Except.ok evs) now).2) :=
  ⟨rfl, rfl⟩

/-- Claim C9: the POST /schedule/add handler passes the submitted events
to add_event (appending them to the cache) and always returns a
ScheduleResponse with an empty events list, never echoing the appended
events or the cache state. -/
theorem C9_add_schedule_empty (schedule : ScheduleResponse)
    (st : SchedulerState) :
    add_schedule schedule st =
      (ScheduleResponse.mk [],
       { st with events := st.events ++ schedule.events }) :=
  rfl

/-- Claim C10: a POST /auth/telegram body with a missing or empty
init_data causes the inner HTTPException 400 to be caught by the
enclosing generic handler and re-raised as 500, so the client always
receives HTTP 500 (never 400) for this validation failure. -/
theorem C10_telegram_auth_500 (init_data : Option String) :
    telegram_auth none =
      Except.error
        { status_code := 500,
          detail := "Telegram auth failed: 400: init_data is required" } ∧
    telegram_auth (some "") =
      Except.error
        { status_code := 500,
          detail := "Telegram auth failed: 400: init_data is required" } ∧
    (∀ e, telegram_auth init_data = Except.error e → e.status_code = 500) := by
  refine ⟨rfl, rfl, ?_⟩
  intro e he
  cases init_data with
  | none =>
    simp only [telegram_auth, telegram_auth_try, Except.error.injEq] at he
    rw [← he]
  | some s =>
    by_cases hs : s = ""
    · subst hs
      have h0 : telegram_auth (some "") =
          Except.error
            { status_code := 500,
              detail := "Telegram auth failed: 400: init_data is required" } := rfl
      rw [h0] at he
      injection he with h1
      rw [← h1]
    · simp [telegram_auth, telegram_auth_try, hs] at he

/-- A concrete instantiation of the C10 theorem on a missing field. -/
theorem C10_witness :
    telegram_auth none =
      Except.error
        { status_code := 500,
          detail := "Telegram auth failed: 400: init_data is required" } :=
  (C10_telegram_auth_500 none).1

end ZalupiX
